import Mathlib

/-!
Shallow embedding of `iotbot/client.py` (class `IOTBOT`): the dispatch and
concurrency engine of the iotbot client.  Handlers are modelled abstractly by
a type parameter `H` (only their identity matters to dispatch); Python
exceptions are modelled with `Except PyErr`; the worker pool is modelled by
its `max_workers` size and by explicit traces of the units of work submitted
to it.  External collaborators (socketio transport, `PluginManager`
internals, the `schedule` library, `model_map` deserializers) are passed in
as parameters or represented by the fields of the state that `client.py`
reads, exactly as `client.py` sees them.
-/

namespace Iotbot

/-- Python exception, carried as its message string. -/
abbrev PyErr := String

/-- Result of a Python callable as seen by the `isinstance(x, type(context))`
check in the message handlers: either a value whose runtime type is the
original message type, or a value of any other type (including `None`). -/
inductive PyVal (α : Type) where
  | ofType (a : α)
  | other
deriving Repr, DecidableEq

/-- Friend (direct) message context, from `model_map['OnFriendMsgs']`;
only the fields `client.py` reads are carried, plus the raw payload. -/
structure FriendMsg where
  FromUin : Int
  data : String
deriving Repr, DecidableEq

/-- Group message context, from `model_map['OnGroupMsgs']`. -/
structure GroupMsg where
  FromGroupId : Int
  data : String
deriving Repr, DecidableEq

/-- Event message context, from `model_map['OnEvents']`. -/
structure EventMsg where
  data : String
deriving Repr, DecidableEq

/-- State of an `IOTBOT` instance: the attributes of the Python object that
the dispatch engine reads and writes.  `H` is the type of handler
(receiver) identities.  The `plug_*` lists mirror the three read-only
handler lists of the external `PluginManager`; `executor_max_workers` is the
`max_workers` bound of `self.__executor`; `scheduler_jobs` is
`len(self.scheduler.jobs)` and `scheduler_started` the dynamically attached
`self.scheduler.started` attribute (absent-at-first, read with `getattr`,
default `False`). -/
structure IOTBOT (H : Type) where
  group_blacklist : List Int
  friend_blacklist : List Int
  friend_msg_receivers_from_hand : List H
  group_msg_receivers_from_hand : List H
  event_receivers_from_hand : List H
  plug_friend_msg_receivers : List H
  plug_group_msg_receivers : List H
  plug_event_receivers : List H
  friend_context_middleware : Option (FriendMsg → Except PyErr (PyVal FriendMsg))
  group_context_middleware : Option (GroupMsg → Except PyErr (PyVal GroupMsg))
  event_context_middleware : Option (EventMsg → Except PyErr (PyVal EventMsg))
  when_connected_do : Option (H × Bool)
  when_disconnected_do : Option (H × Bool)
  scheduler_jobs : Nat
  scheduler_started : Bool
  executor_max_workers : Nat
  exitFlag : Bool

/-- Combined number of receivers across the three categories, plugin-supplied
and hand-registered: the length of the list `__refresh_executor` builds
before appending `*range(3)`. -/
def totalReceiverCount (bot : IOTBOT H) : Nat :=
  bot.plug_friend_msg_receivers.length + bot.friend_msg_receivers_from_hand.length +
    bot.plug_group_msg_receivers.length + bot.group_msg_receivers_from_hand.length +
    bot.plug_event_receivers.length + bot.event_receivers_from_hand.length

/-- Embedding of `IOTBOT.__refresh_executor`: replaces the thread pool with
one of `max_workers = min(50, len([*receivers, *range(3)]) * 2)`. -/
def refresh_executor (bot : IOTBOT H) : IOTBOT H :=
  { bot with executor_max_workers := min 50 ((totalReceiverCount bot + 3) * 2) }

/-- Embedding of the part of `IOTBOT.__init__` the claims depend on: the
blacklists are built from the configured lists, the hand-registered receiver
lists start empty, the plugin lists are whatever `PluginManager` loaded, no
middleware and no lifecycle hooks are registered, the scheduler is fresh
(no jobs, no `started` attribute), and `__refresh_executor` is invoked once
to size the pool. -/
def IOTBOT.init (group_blacklist friend_blacklist : List Int)
    (plugFriend plugGroup plugEvent : List H) : IOTBOT H :=
  refresh_executor
    { group_blacklist := group_blacklist
      friend_blacklist := friend_blacklist
      friend_msg_receivers_from_hand := []
      group_msg_receivers_from_hand := []
      event_receivers_from_hand := []
      plug_friend_msg_receivers := plugFriend
      plug_group_msg_receivers := plugGroup
      plug_event_receivers := plugEvent
      friend_context_middleware := none
      group_context_middleware := none
      event_context_middleware := none
      when_connected_do := none
      when_disconnected_do := none
      scheduler_jobs := 0
      scheduler_started := false
      executor_max_workers := 0
      exitFlag := false }

/-- Embedding of `IOTBOT.add_group_msg_receiver`: appends to the
hand-registered group list.  The source method does nothing else (in
particular it does not call `__refresh_executor`). -/
def add_group_msg_receiver (bot : IOTBOT H) (func : H) : IOTBOT H :=
  { bot with group_msg_receivers_from_hand :=
      bot.group_msg_receivers_from_hand ++ [func] }

/-- Embedding of `IOTBOT.add_friend_msg_receiver`. -/
def add_friend_msg_receiver (bot : IOTBOT H) (func : H) : IOTBOT H :=
  { bot with friend_msg_receivers_from_hand :=
      bot.friend_msg_receivers_from_hand ++ [func] }

/-- Embedding of `IOTBOT.add_event_receiver`. -/
def add_event_receiver (bot : IOTBOT H) (func : H) : IOTBOT H :=
  { bot with event_receivers_from_hand :=
      bot.event_receivers_from_hand ++ [func] }

/-- Embedding of `IOTBOT.load_plugins` (and of the other plugin shortcuts,
which differ only in which `PluginManager` method they delegate to): the
external manager replaces its three handler lists; the bot object itself is
otherwise untouched — none of these shortcuts calls `__refresh_executor`. -/
def load_plugins (bot : IOTBOT H)
    (newFriend newGroup newEvent : List H) : IOTBOT H :=
  { bot with plug_friend_msg_receivers := newFriend
             plug_group_msg_receivers := newGroup
             plug_event_receivers := newEvent }

/-- Embedding of `IOTBOT.register_friend_context_middleware`.  The result
pairs the object state after the call with the exception raised, if any:
`raise Exception(...)` aborts before the assignment, so on the occupied
branch the state is returned unchanged. -/
def register_friend_context_middleware (bot : IOTBOT H)
    (middleware : FriendMsg → Except PyErr (PyVal FriendMsg)) :
    IOTBOT H × Option PyErr :=
  if bot.friend_context_middleware.isSome then
    (bot, some "Cannot register more than one middleware(friend)")
  else
    ({ bot with friend_context_middleware := some middleware }, none)

/-- Embedding of `IOTBOT.register_group_context_middleware`. -/
def register_group_context_middleware (bot : IOTBOT H)
    (middleware : GroupMsg → Except PyErr (PyVal GroupMsg)) :
    IOTBOT H × Option PyErr :=
  if bot.group_context_middleware.isSome then
    (bot, some "Cannot register more than one middleware(group)")
  else
    ({ bot with group_context_middleware := some middleware }, none)

/-- Embedding of `IOTBOT.register_event_context_middleware`. -/
def register_event_context_middleware (bot : IOTBOT H)
    (middleware : EventMsg → Except PyErr (PyVal EventMsg)) :
    IOTBOT H × Option PyErr :=
  if bot.event_context_middleware.isSome then
    (bot, some "Cannot register more than one middleware(event)")
  else
    ({ bot with event_context_middleware := some middleware }, none)

/-- Embedding of `IOTBOT.when_connected` applied to an actual function (the
`func is None` branch only returns a decorator closure and changes no
state): unconditionally overwrites the slot with `(func, every_time)` and
never raises. -/
def when_connected (bot : IOTBOT H) (func : H) (every_time : Bool) :
    IOTBOT H × Option PyErr :=
  ({ bot with when_connected_do := some (func, every_time) }, none)

/-- Embedding of `IOTBOT.when_disconnected` applied to an actual function. -/
def when_disconnected (bot : IOTBOT H) (func : H) (every_time : Bool) :
    IOTBOT H × Option PyErr :=
  ({ bot with when_disconnected_do := some (func, every_time) }, none)

/-- Outcome of one of the three `__*_msg_handler` entry points on a raw
inbound payload, when no exception escapes. -/
inductive DispatchOutcome (α : Type) where
  | droppedBlacklist
  | droppedMiddleware
  | dispatched (context : α)
deriving Repr, DecidableEq

/-- Embedding of `IOTBOT.__friend_msg_handler`.  `deser` is the external
`model_map['OnFriendMsgs']` constructor; `msg` the raw payload.  The method
has no `try`/`except`: an exception from deserialization or from the
middleware propagates to the caller (the socketio callback machinery),
which the `Except` result records as `.error`. -/
def friend_msg_handler (bot : IOTBOT H)
    (deser : String → Except PyErr FriendMsg) (msg : String) :
    Except PyErr (DispatchOutcome FriendMsg) :=
  (deser msg).bind fun context =>
    if context.FromUin ∈ bot.friend_blacklist then
      .ok .droppedBlacklist
    else
      match bot.friend_context_middleware with
      | none => .ok (.dispatched context)
      | some mw =>
        (mw context).bind fun new_context =>
          match new_context with
          | .ofType m => .ok (.dispatched m)
          | .other => .ok .droppedMiddleware

/-- Embedding of `IOTBOT.__group_msg_handler`. -/
def group_msg_handler (bot : IOTBOT H)
    (deser : String → Except PyErr GroupMsg) (msg : String) :
    Except PyErr (DispatchOutcome GroupMsg) :=
  (deser msg).bind fun context =>
    if context.FromGroupId ∈ bot.group_blacklist then
      .ok .droppedBlacklist
    else
      match bot.group_context_middleware with
      | none => .ok (.dispatched context)
      | some mw =>
        (mw context).bind fun new_context =>
          match new_context with
          | .ofType m => .ok (.dispatched m)
          | .other => .ok .droppedMiddleware

/-- Embedding of `IOTBOT.__event_msg_handler`: same pipeline minus any
blacklist check. -/
def event_msg_handler (bot : IOTBOT H)
    (deser : String → Except PyErr EventMsg) (msg : String) :
    Except PyErr (DispatchOutcome EventMsg) :=
  (deser msg).bind fun context =>
    match bot.event_context_middleware with
    | none => .ok (.dispatched context)
    | some mw =>
      (mw context).bind fun new_context =>
        match new_context with
        | .ofType m => .ok (.dispatched m)
        | .other => .ok .droppedMiddleware

/-- Embedding of `IOTBOT.__friend_context_distributor` at the value level:
the list of (receiver, argument) invocations it submits, hand-registered
receivers first, then plugin receivers, each receiver applied to
`copy.deepcopy(context)` — a value structurally equal to `context`
(object-identity aspects of `deepcopy` are modelled separately below with
`PyObj`). -/
def friend_context_distributor (bot : IOTBOT H) (context : FriendMsg) :
    List (H × FriendMsg) :=
  (bot.friend_msg_receivers_from_hand ++ bot.plug_friend_msg_receivers).map
    fun r => (r, context)

/-- Embedding of `IOTBOT.__group_context_distributor` at the value level. -/
def group_context_distributor (bot : IOTBOT H) (context : GroupMsg) :
    List (H × GroupMsg) :=
  (bot.group_msg_receivers_from_hand ++ bot.plug_group_msg_receivers).map
    fun r => (r, context)

/-- Embedding of `IOTBOT.__event_context_distributor` at the value level. -/
def event_context_distributor (bot : IOTBOT H) (context : EventMsg) :
    List (H × EventMsg) :=
  (bot.event_receivers_from_hand ++ bot.plug_event_receivers).map
    fun r => (r, context)

/-- Receiver invocations eventually performed for one raw inbound friend
payload: the handler entry point followed, when it dispatches, by the
distributor it submits.  `.error` records an exception escaping the entry
point (no receiver runs). -/
def friend_handlers_invoked (bot : IOTBOT H)
    (deser : String → Except PyErr FriendMsg) (msg : String) :
    Except PyErr (List (H × FriendMsg)) :=
  (friend_msg_handler bot deser msg).bind fun outcome =>
    match outcome with
    | .dispatched context => .ok (friend_context_distributor bot context)
    | _ => .ok []

/-- Receiver invocations for one raw inbound group payload. -/
def group_handlers_invoked (bot : IOTBOT H)
    (deser : String → Except PyErr GroupMsg) (msg : String) :
    Except PyErr (List (H × GroupMsg)) :=
  (group_msg_handler bot deser msg).bind fun outcome =>
    match outcome with
    | .dispatched context => .ok (group_context_distributor bot context)
    | _ => .ok []

/-- Receiver invocations for one raw inbound event payload. -/
def event_handlers_invoked (bot : IOTBOT H)
    (deser : String → Except PyErr EventMsg) (msg : String) :
    Except PyErr (List (H × EventMsg)) :=
  (event_msg_handler bot deser msg).bind fun outcome =>
    match outcome with
    | .dispatched context => .ok (event_context_distributor bot context)
    | _ => .ok []

/-- Kind of one unit of work submitted to `self.__executor`. -/
inductive WorkKind (H : Type) where
  | dispatchStep
  | handlerCall (receiver : H)
  | schedulerLoop
deriving Repr, DecidableEq

/-- One `submit` call on the executor, with whether the returned future was
wrapped via `.add_done_callback(self.__thread_pool_callback)`. -/
structure Submission (H : Type) where
  kind : WorkKind H
  hasDoneCallback : Bool
deriving Repr, DecidableEq

/-- Submissions eventually made to the executor for one raw inbound friend
payload.  On dispatch, `__friend_msg_handler` submits the distributor with
a bare `submit(...)` (no `add_done_callback`), and the distributor then
submits one receiver call per handler, each with
`.add_done_callback(self.__thread_pool_callback)`. -/
def friend_pipeline_submissions (bot : IOTBOT H)
    (deser : String → Except PyErr FriendMsg) (msg : String) :
    Except PyErr (List (Submission H)) :=
  (friend_msg_handler bot deser msg).bind fun outcome =>
    match outcome with
    | .dispatched _ =>
      .ok (⟨.dispatchStep, false⟩ ::
        (bot.friend_msg_receivers_from_hand ++ bot.plug_friend_msg_receivers).map
          fun r => ⟨.handlerCall r, true⟩)
    | _ => .ok []

/-- Submissions for one raw inbound group payload. -/
def group_pipeline_submissions (bot : IOTBOT H)
    (deser : String → Except PyErr GroupMsg) (msg : String) :
    Except PyErr (List (Submission H)) :=
  (group_msg_handler bot deser msg).bind fun outcome =>
    match outcome with
    | .dispatched _ =>
      .ok (⟨.dispatchStep, false⟩ ::
        (bot.group_msg_receivers_from_hand ++ bot.plug_group_msg_receivers).map
          fun r => ⟨.handlerCall r, true⟩)
    | _ => .ok []

/-- Submissions for one raw inbound event payload. -/
def event_pipeline_submissions (bot : IOTBOT H)
    (deser : String → Except PyErr EventMsg) (msg : String) :
    Except PyErr (List (Submission H)) :=
  (event_msg_handler bot deser msg).bind fun outcome =>
    match outcome with
    | .dispatched _ =>
      .ok (⟨.dispatchStep, false⟩ ::
        (bot.event_receivers_from_hand ++ bot.plug_event_receivers).map
          fun r => ⟨.handlerCall r, true⟩)
    | _ => .ok []

/-- Object on the Python heap: an identity (address) plus a structural
value.  Two `PyObj`s with different addresses are distinct objects even
when structurally equal. -/
structure PyObj (α : Type) where
  addr : Nat
  val : α
deriving Repr, DecidableEq

/-- Model of `copy.deepcopy`: allocates a fresh address holding a
structurally equal value that shares no mutable structure with the
original. -/
def deepcopy (fresh : Nat) (o : PyObj α) : PyObj α :=
  ⟨fresh, o.val⟩

/-- Loop body shared by the three `__*_context_distributor` methods, at the
object level: one `submit(receiver, copy.deepcopy(context))` per receiver,
the allocator yielding a fresh address for every copy. -/
def submitWithCopies (context : PyObj α) :
    List H → Nat → List (H × PyObj α)
  | [], _ => []
  | r :: rest, fresh =>
    (r, deepcopy fresh context) :: submitWithCopies context rest (fresh + 1)

/-- Embedding of `IOTBOT.__group_context_distributor` at the object level:
`fresh` is the allocator's next free address when the distributor runs. -/
def group_context_distributor_objs (bot : IOTBOT H)
    (context : PyObj GroupMsg) (fresh : Nat) : List (H × PyObj GroupMsg) :=
  submitWithCopies context
    (bot.group_msg_receivers_from_hand ++ bot.plug_group_msg_receivers) fresh

/-- Observable effect of one run of `IOTBOT.connect` or
`IOTBOT.disconnect`: the scheduler loop being submitted to the executor, or
a lifecycle hook being called. -/
inductive ConnectEffect (H : Type) where
  | schedulerSubmitted
  | hookRan (func : H)
deriving Repr, DecidableEq

/-- Embedding of `IOTBOT.connect` (the socketio connect callback): first
the scheduler-loop start guarded by `len(self.scheduler.jobs) != 0 and not
getattr(self.scheduler, 'started', False)` (on firing it submits
`_run_padding` and sets `self.scheduler.started = True`), then the
connected hook, cleared after running when its `every_time` flag is false.
The `GetWebConn` emissions go to the external transport and carry no bot
state, so they are not modelled. -/
def connect (bot : IOTBOT H) : IOTBOT H × List (ConnectEffect H) :=
  let fire := bot.scheduler_jobs != 0 && !bot.scheduler_started
  let bot1 := if fire then { bot with scheduler_started := true } else bot
  let eff1 : List (ConnectEffect H) :=
    if fire then [.schedulerSubmitted] else []
  match bot1.when_connected_do with
  | none => (bot1, eff1)
  | some fe =>
    ({ bot1 with when_connected_do := if fe.2 then some fe else none },
      eff1 ++ [.hookRan fe.1])

/-- Embedding of `IOTBOT.disconnect` (the socketio disconnect callback). -/
def disconnect (bot : IOTBOT H) : IOTBOT H × List (ConnectEffect H) :=
  match bot.when_disconnected_do with
  | none => (bot, [])
  | some fe =>
    ({ bot with when_disconnected_do := if fe.2 then some fe else none },
      [.hookRan fe.1])

/-- External stimulus in one session: a (re)connect, a disconnect, or the
user registering one more job on `self.scheduler` through the external
`schedule` library. -/
inductive SessionEvent where
  | connectEvent
  | disconnectEvent
  | addJob
deriving Repr, DecidableEq

/-- Effect of one session event on the bot state. -/
def stepEvent (bot : IOTBOT H) : SessionEvent → IOTBOT H × List (ConnectEffect H)
  | .connectEvent => connect bot
  | .disconnectEvent => disconnect bot
  | .addJob => ({ bot with scheduler_jobs := bot.scheduler_jobs + 1 }, [])

/-- Runs a sequence of session events, accumulating the effect trace. -/
def runEvents (bot : IOTBOT H) : List SessionEvent → IOTBOT H × List (ConnectEffect H)
  | [] => (bot, [])
  | e :: rest =>
    ((runEvents (stepEvent bot e).1 rest).1,
      (stepEvent bot e).2 ++ (runEvents (stepEvent bot e).1 rest).2)

/-- Number of scheduler-loop submissions in an effect trace. -/
def countSchedulerSubmissions : List (ConnectEffect H) → Nat
  | [] => 0
  | .schedulerSubmitted :: rest => countSchedulerSubmissions rest + 1
  | .hookRan _ :: rest => countSchedulerSubmissions rest

/-- Number of lifecycle-hook executions in an effect trace. -/
def countHooksRun : List (ConnectEffect H) → Nat
  | [] => 0
  | .schedulerSubmitted :: rest => countHooksRun rest
  | .hookRan _ :: rest => countHooksRun rest + 1

/-- Discipline the submissions actually follow in the source: receiver
invocations and the scheduler loop carry
`.add_done_callback(self.__thread_pool_callback)`; the per-category
dispatch step is submitted bare. -/
def submissionDiscipline (s : Submission H) : Bool :=
  match s.kind with
  | .dispatchStep => !s.hasDoneCallback
  | .handlerCall _ => s.hasDoneCallback
  | .schedulerLoop => s.hasDoneCallback

/-!
Concrete fixtures (handler identities drawn from `Nat`) used by the witness
and counterexample theorems below.
-/

/-- Fresh bot: no blacklists, no plugins, no hand-registered receivers. -/
def cBot0 : IOTBOT Nat := IOTBOT.init [] [] [] [] []

/-- Bot with group 9 blacklisted and friend 5 blacklisted. -/
def cBotBL : IOTBOT Nat := IOTBOT.init [9] [5] [] [] []

/-- Bot with one hand-registered friend receiver, number 7. -/
def cBot1 : IOTBOT Nat := add_friend_msg_receiver cBot0 7

/-- Bot with two hand-registered group receivers. -/
def cBotG : IOTBOT Nat := add_group_msg_receiver (add_group_msg_receiver cBot0 1) 2

/-- Friend deserializer fixture: sender 5, data the raw payload. -/
def cDeserF : String → Except PyErr FriendMsg := fun s => .ok ⟨5, s⟩

/-- Group deserializer fixture: group 9. -/
def cDeserG : String → Except PyErr GroupMsg := fun s => .ok ⟨9, s⟩

/-- Event deserializer fixture. -/
def cDeserE : String → Except PyErr EventMsg := fun s => .ok ⟨s⟩

/-- Friend deserializer that raises. -/
def cDeserBoom : String → Except PyErr FriendMsg := fun _ => .error "boom"

/-- Friend middleware fixture that transforms the message. -/
def cMwF : FriendMsg → Except PyErr (PyVal FriendMsg) :=
  fun m => .ok (.ofType ⟨m.FromUin + 1, m.data⟩)

/-- Friend middleware fixture that returns a value of another type. -/
def cMwFVeto : FriendMsg → Except PyErr (PyVal FriendMsg) := fun _ => .ok .other

/-- Group middleware fixture (identity). -/
def cMwG : GroupMsg → Except PyErr (PyVal GroupMsg) := fun m => .ok (.ofType m)

/-- Event middleware fixture (identity). -/
def cMwE : EventMsg → Except PyErr (PyVal EventMsg) := fun m => .ok (.ofType m)

/-- Event middleware fixture that raises. -/
def cMwEBoom : EventMsg → Except PyErr (PyVal EventMsg) := fun _ => .error "mwboom"

/-- Bot with one friend receiver and the transforming friend middleware. -/
def cBotMw : IOTBOT Nat := { cBot1 with friend_context_middleware := some cMwF }

/-- Bot with one friend receiver and the vetoing friend middleware. -/
def cBotMwVeto : IOTBOT Nat :=
  { cBot1 with friend_context_middleware := some cMwFVeto }

/-- Bot whose event middleware raises. -/
def cBotEMw : IOTBOT Nat := { cBot0 with event_context_middleware := some cMwEBoom }

/-!
Helper lemmas shared by the claim theorems.
-/

theorem except_ok_bind (a : α) (f : α → Except ε β) :
    (Except.ok a : Except ε α).bind f = f a := rfl

theorem except_error_bind (e : ε) (f : α → Except ε β) :
    (Except.error e : Except ε α).bind f = Except.error e := rfl

theorem countSchedulerSubmissions_append (l1 l2 : List (ConnectEffect H)) :
    countSchedulerSubmissions (l1 ++ l2)
      = countSchedulerSubmissions l1 + countSchedulerSubmissions l2 := by
  induction l1 with
  | nil => simp [countSchedulerSubmissions]
  | cons e rest ih =>
    cases e with
    | schedulerSubmitted => simp [countSchedulerSubmissions, ih]; omega
    | hookRan f => simp [countSchedulerSubmissions, ih]

theorem countHooksRun_append (l1 l2 : List (ConnectEffect H)) :
    countHooksRun (l1 ++ l2) = countHooksRun l1 + countHooksRun l2 := by
  induction l1 with
  | nil => simp [countHooksRun]
  | cons e rest ih =>
    cases e with
    | schedulerSubmitted => simp [countHooksRun, ih]
    | hookRan f => simp [countHooksRun, ih]; omega

theorem connect_sched_count (bot : IOTBOT H) :
    countSchedulerSubmissions (connect bot).2
        = (if bot.scheduler_jobs != 0 && !bot.scheduler_started then 1 else 0)
      ∧ (connect bot).1.scheduler_started
        = (bot.scheduler_started || (bot.scheduler_jobs != 0 && !bot.scheduler_started)) := by
  cases hf : (bot.scheduler_jobs != 0 && !bot.scheduler_started) <;>
    cases hw : bot.when_connected_do <;>
      simp [connect, hf, hw, countSchedulerSubmissions,
        countSchedulerSubmissions_append]

theorem disconnect_sched (bot : IOTBOT H) :
    countSchedulerSubmissions (disconnect bot).2 = 0
      ∧ (disconnect bot).1.scheduler_started = bot.scheduler_started := by
  cases hw : bot.when_disconnected_do <;>
    simp [disconnect, hw, countSchedulerSubmissions]

theorem stepEvent_sched (bot : IOTBOT H) (e : SessionEvent) :
    countSchedulerSubmissions (stepEvent bot e).2
        + (if bot.scheduler_started then 1 else 0)
      = (if (stepEvent bot e).1.scheduler_started then 1 else 0) := by
  cases e with
  | connectEvent =>
    have h := connect_sched_count bot
    simp only [stepEvent, h.1, h.2]
    cases hs : bot.scheduler_started <;>
      cases hj : (bot.scheduler_jobs != 0) <;> simp
  | disconnectEvent =>
    have h := disconnect_sched bot
    simp only [stepEvent, h.1, h.2]
    omega
  | addJob => simp [stepEvent, countSchedulerSubmissions]

theorem runEvents_sched_invariant (evs : List SessionEvent) (bot : IOTBOT H) :
    countSchedulerSubmissions (runEvents bot evs).2
        + (if bot.scheduler_started then 1 else 0)
      = (if (runEvents bot evs).1.scheduler_started then 1 else 0) := by
  induction evs generalizing bot with
  | nil => simp [runEvents, countSchedulerSubmissions]
  | cons e rest ih =>
    simp only [runEvents, countSchedulerSubmissions_append]
    have h1 := stepEvent_sched bot e
    have h2 := ih (stepEvent bot e).1
    omega

theorem submitWithCopies_map_fst (context : PyObj α) (rs : List H) (fresh : Nat) :
    (submitWithCopies context rs fresh).map Prod.fst = rs := by
  induction rs generalizing fresh with
  | nil => simp [submitWithCopies]
  | cons r rest ih => simp [submitWithCopies, ih]

theorem submitWithCopies_mem (context : PyObj α) (rs : List H) (fresh : Nat) :
    ∀ e ∈ submitWithCopies context rs fresh,
      e.2.val = context.val ∧ fresh ≤ e.2.addr ∧ e.2.addr < fresh + rs.length := by
  induction rs generalizing fresh with
  | nil => simp [submitWithCopies]
  | cons r rest ih =>
    intro e he
    simp only [submitWithCopies, List.mem_cons] at he
    rcases he with he | he
    · subst he
      simp [deepcopy]
    · obtain ⟨hval, hle, hlt⟩ := ih (fresh + 1) e he
      refine ⟨hval, by omega, ?_⟩
      simp only [List.length_cons]
      omega

theorem submitWithCopies_addr_nodup (context : PyObj α) (rs : List H) (fresh : Nat) :
    ((submitWithCopies context rs fresh).map fun e => e.2.addr).Nodup := by
  induction rs generalizing fresh with
  | nil => simp [submitWithCopies]
  | cons r rest ih =>
    simp only [submitWithCopies, List.map_cons, List.nodup_cons, deepcopy]
    refine ⟨?_, ih (fresh + 1)⟩
    intro hmem
    obtain ⟨e, he, haddr⟩ := List.mem_map.mp hmem
    have := (submitWithCopies_mem context rest (fresh + 1) e he).2.1
    omega

/-!
Claim theorems.
-/

/-- C1, counterexample: on a freshly constructed bot with no receivers the
pool was sized `min(50, 2 * (0 + 3)) = 6`; after `add_group_msg_receiver`
the claimed formula gives `min(50, 2 * (1 + 3)) = 8`, but the pool is not
resized (no call to `__refresh_executor`), so its size is still 6. -/
theorem pool_resize_on_registration_fails :
    ¬ ((add_group_msg_receiver (IOTBOT.init [] [] [] [] [] : IOTBOT Nat) 0).executor_max_workers
        = min 50
            ((totalReceiverCount (add_group_msg_receiver (IOTBOT.init [] [] [] [] [] : IOTBOT Nat) 0)
              + 3) * 2)) := by
  decide

/-- C1, amended: the worker pool size equals
`min(50, 2 * (friend + group + event receiver count + 3))` when it is
computed — in `__init__` and in any run of `__refresh_executor` — but the
handler-registration methods and the plugin shortcuts do not recompute it:
they leave the pool untouched. -/
theorem pool_sizing_formula (H : Type) (gb fb : List Int)
    (pf pg pe : List H) (bot : IOTBOT H) (f : H)
    (newF newG newE : List H) :
    (IOTBOT.init gb fb pf pg pe : IOTBOT H).executor_max_workers
        = min 50 ((totalReceiverCount (IOTBOT.init gb fb pf pg pe : IOTBOT H) + 3) * 2)
    ∧ (refresh_executor bot).executor_max_workers
        = min 50 ((totalReceiverCount bot + 3) * 2)
    ∧ (add_friend_msg_receiver bot f).executor_max_workers = bot.executor_max_workers
    ∧ (add_group_msg_receiver bot f).executor_max_workers = bot.executor_max_workers
    ∧ (add_event_receiver bot f).executor_max_workers = bot.executor_max_workers
    ∧ (load_plugins bot newF newG newE).executor_max_workers = bot.executor_max_workers :=
  ⟨rfl, rfl, rfl, rfl, rfl, rfl⟩

/-- C4: for each of the three categories, registering a middleware into an
empty slot installs it and raises nothing, while registering while a
middleware is already present raises the configuration error and leaves the
previously registered middleware untouched. -/
theorem middleware_single_slot (bot : IOTBOT H)
    (mwF : FriendMsg → Except PyErr (PyVal FriendMsg))
    (mwG : GroupMsg → Except PyErr (PyVal GroupMsg))
    (mwE : EventMsg → Except PyErr (PyVal EventMsg)) :
    (bot.friend_context_middleware = none →
      register_friend_context_middleware bot mwF
        = ({ bot with friend_context_middleware := some mwF }, none))
    ∧ (∀ m0, bot.friend_context_middleware = some m0 →
        register_friend_context_middleware bot mwF
          = (bot, some "Cannot register more than one middleware(friend)")
        ∧ (register_friend_context_middleware bot mwF).1.friend_context_middleware = some m0)
    ∧ (bot.group_context_middleware = none →
      register_group_context_middleware bot mwG
        = ({ bot with group_context_middleware := some mwG }, none))
    ∧ (∀ m0, bot.group_context_middleware = some m0 →
        register_group_context_middleware bot mwG
          = (bot, some "Cannot register more than one middleware(group)")
        ∧ (register_group_context_middleware bot mwG).1.group_context_middleware = some m0)
    ∧ (bot.event_context_middleware = none →
      register_event_context_middleware bot mwE
        = ({ bot with event_context_middleware := some mwE }, none))
    ∧ (∀ m0, bot.event_context_middleware = some m0 →
        register_event_context_middleware bot mwE
          = (bot, some "Cannot register more than one middleware(event)")
        ∧ (register_event_context_middleware bot mwE).1.event_context_middleware = some m0) := by
  refine ⟨?_, ?_, ?_, ?_, ?_, ?_⟩
  · intro h; simp [register_friend_context_middleware, h]
  · intro m0 h
    constructor <;> simp [register_friend_context_middleware, h]
  · intro h; simp [register_group_context_middleware, h]
  · intro m0 h
    constructor <;> simp [register_group_context_middleware, h]
  · intro h; simp [register_event_context_middleware, h]
  · intro m0 h
    constructor <;> simp [register_event_context_middleware, h]

/-- C4, witness: on the fresh bot the friend registration succeeds; on the
bot already holding a friend middleware it raises the configuration error
and the slot still holds the original middleware. -/
theorem middleware_single_slot_witness :
    register_friend_context_middleware cBot0 cMwF
      = ({ cBot0 with friend_context_middleware := some cMwF }, none)
    ∧ register_friend_context_middleware cBotMw cMwFVeto
      = (cBotMw, some "Cannot register more than one middleware(friend)")
    ∧ (register_friend_context_middleware cBotMw cMwFVeto).1.friend_context_middleware
      = some cMwF := by
  refine ⟨(middleware_single_slot cBot0 cMwF cMwG cMwE).1 rfl, ?_, ?_⟩
  · exact ((middleware_single_slot cBotMw cMwFVeto cMwG cMwE).2.1 cMwF rfl).1
  · exact ((middleware_single_slot cBotMw cMwFVeto cMwG cMwE).2.1 cMwF rfl).2

/-- C10: `when_connected` and `when_disconnected`, called with a function,
never raise — even when a hook is already registered — and silently
overwrite the slot with the most recent `(callable, every_time)` pair. -/
theorem hook_registration_replaces (bot : IOTBOT H) (f1 f2 : H) (e1 e2 : Bool) :
    when_connected bot f1 e1 = ({ bot with when_connected_do := some (f1, e1) }, none)
    ∧ when_connected { bot with when_connected_do := some (f1, e1) } f2 e2
        = ({ bot with when_connected_do := some (f2, e2) }, none)
    ∧ when_disconnected bot f1 e1
        = ({ bot with when_disconnected_do := some (f1, e1) }, none)
    ∧ when_disconnected { bot with when_disconnected_do := some (f1, e1) } f2 e2
        = ({ bot with when_disconnected_do := some (f2, e2) }, none) :=
  ⟨rfl, rfl, rfl, rfl⟩

/-- C2: a group message whose `FromGroupId` is in the group blacklist and a
friend message whose `FromUin` is in the friend blacklist are dropped
before the middleware runs (the outcome is `droppedBlacklist` whatever
middleware is installed) and zero receivers of that category are invoked;
the event handler performs no blacklist check at all (its result is
unchanged by any choice of blacklists). -/
theorem blacklist_drop (bot : IOTBOT H)
    (deserF : String → Except PyErr FriendMsg) (msgF : String) (ctxF : FriendMsg)
    (deserG : String → Except PyErr GroupMsg) (msgG : String) (ctxG : GroupMsg)
    (deserE : String → Except PyErr EventMsg) (msgE : String) :
    (deserF msgF = .ok ctxF → ctxF.FromUin ∈ bot.friend_blacklist →
      friend_msg_handler bot deserF msgF = .ok .droppedBlacklist
      ∧ friend_handlers_invoked bot deserF msgF = .ok []
      ∧ ∀ mw, friend_msg_handler { bot with friend_context_middleware := mw } deserF msgF
          = .ok .droppedBlacklist)
    ∧ (deserG msgG = .ok ctxG → ctxG.FromGroupId ∈ bot.group_blacklist →
      group_msg_handler bot deserG msgG = .ok .droppedBlacklist
      ∧ group_handlers_invoked bot deserG msgG = .ok []
      ∧ ∀ mw, group_msg_handler { bot with group_context_middleware := mw } deserG msgG
          = .ok .droppedBlacklist)
    ∧ (∀ gb fb : List Int,
        event_msg_handler { bot with group_blacklist := gb, friend_blacklist := fb } deserE msgE
          = event_msg_handler bot deserE msgE) := by
  refine ⟨?_, ?_, ?_⟩
  · intro h1 h2
    refine ⟨?_, ?_, ?_⟩
    · simp [friend_msg_handler, except_ok_bind, h1, h2]
    · simp [friend_handlers_invoked, friend_msg_handler, except_ok_bind, h1, h2]
    · intro mw; simp [friend_msg_handler, except_ok_bind, h1, h2]
  · intro h1 h2
    refine ⟨?_, ?_, ?_⟩
    · simp [group_msg_handler, except_ok_bind, h1, h2]
    · simp [group_handlers_invoked, group_msg_handler, except_ok_bind, h1, h2]
    · intro mw; simp [group_msg_handler, except_ok_bind, h1, h2]
  · intro gb fb
    rfl

/-- C2, witness: on the bot blacklisting friend 5 and group 9, a friend
message from 5 and a group message from 9 are both dropped with zero
receiver invocations. -/
theorem blacklist_drop_witness :
    friend_msg_handler cBotBL cDeserF "m" = .ok .droppedBlacklist
    ∧ friend_handlers_invoked cBotBL cDeserF "m" = .ok []
    ∧ group_msg_handler cBotBL cDeserG "m" = .ok .droppedBlacklist
    ∧ group_handlers_invoked cBotBL cDeserG "m" = .ok [] := by
  have h := blacklist_drop cBotBL cDeserF "m" ⟨5, "m"⟩ cDeserG "m" ⟨9, "m"⟩ cDeserE "m"
  have hf := h.1 rfl (by decide)
  have hg := h.2.1 rfl (by decide)
  exact ⟨hf.1, hf.2.1, hg.1, hg.2.1⟩

/-- C3: with a middleware registered and a non-blacklisted message, a
middleware result of the original message type replaces the message and
every receiver of the category (hand-registered then plugin) is invoked
with the transformed value, while a middleware result of any other type
(modelled by `PyVal.other`, which covers `None`) makes zero receivers
run. -/
theorem middleware_transform_or_veto (bot : IOTBOT H)
    (deserF : String → Except PyErr FriendMsg) (msgF : String) (ctxF : FriendMsg)
    (deserG : String → Except PyErr GroupMsg) (msgG : String) (ctxG : GroupMsg)
    (deserE : String → Except PyErr EventMsg) (msgE : String) (ctxE : EventMsg) :
    (∀ mw, bot.friend_context_middleware = some mw →
      deserF msgF = .ok ctxF → ctxF.FromUin ∉ bot.friend_blacklist →
      (∀ newCtx, mw ctxF = .ok (.ofType newCtx) →
        friend_handlers_invoked bot deserF msgF
          = .ok ((bot.friend_msg_receivers_from_hand ++ bot.plug_friend_msg_receivers).map
              fun r => (r, newCtx)))
      ∧ (mw ctxF = .ok .other → friend_handlers_invoked bot deserF msgF = .ok []))
    ∧ (∀ mw, bot.group_context_middleware = some mw →
      deserG msgG = .ok ctxG → ctxG.FromGroupId ∉ bot.group_blacklist →
      (∀ newCtx, mw ctxG = .ok (.ofType newCtx) →
        group_handlers_invoked bot deserG msgG
          = .ok ((bot.group_msg_receivers_from_hand ++ bot.plug_group_msg_receivers).map
              fun r => (r, newCtx)))
      ∧ (mw ctxG = .ok .other → group_handlers_invoked bot deserG msgG = .ok []))
    ∧ (∀ mw, bot.event_context_middleware = some mw →
      deserE msgE = .ok ctxE →
      (∀ newCtx, mw ctxE = .ok (.ofType newCtx) →
        event_handlers_invoked bot deserE msgE
          = .ok ((bot.event_receivers_from_hand ++ bot.plug_event_receivers).map
              fun r => (r, newCtx)))
      ∧ (mw ctxE = .ok .other → event_handlers_invoked bot deserE msgE = .ok [])) := by
  refine ⟨?_, ?_, ?_⟩
  · intro mw hmw h1 h2
    constructor
    · intro newCtx hres
      simp [friend_handlers_invoked, friend_msg_handler, except_ok_bind, h1, h2, hmw, hres,
        friend_context_distributor]
    · intro hres
      simp [friend_handlers_invoked, friend_msg_handler, except_ok_bind, h1, h2, hmw, hres]
  · intro mw hmw h1 h2
    constructor
    · intro newCtx hres
      simp [group_handlers_invoked, group_msg_handler, except_ok_bind, h1, h2, hmw, hres,
        group_context_distributor]
    · intro hres
      simp [group_handlers_invoked, group_msg_handler, except_ok_bind, h1, h2, hmw, hres]
  · intro mw hmw h1
    constructor
    · intro newCtx hres
      simp [event_handlers_invoked, event_msg_handler, except_ok_bind, h1, hmw, hres,
        event_context_distributor]
    · intro hres
      simp [event_handlers_invoked, event_msg_handler, except_ok_bind, h1, hmw, hres]

/-- C3, witness: the transforming friend middleware turns the message from
sender 5 into one from sender 6 and the single registered receiver gets it;
the vetoing middleware makes zero receivers run for the same message. -/
theorem middleware_transform_or_veto_witness :
    friend_handlers_invoked cBotMw cDeserF "m" = .ok [(7, ⟨6, "m"⟩)]
    ∧ friend_handlers_invoked cBotMwVeto cDeserF "m" = .ok [] := by
  constructor
  · have h := (middleware_transform_or_veto cBotMw cDeserF "m" ⟨5, "m"⟩
      cDeserG "m" ⟨9, "m"⟩ cDeserE "m" ⟨"m"⟩).1 cMwF rfl rfl (by decide)
    simpa using h.1 ⟨6, "m"⟩ rfl
  · have h := (middleware_transform_or_veto cBotMwVeto cDeserF "m" ⟨5, "m"⟩
      cDeserG "m" ⟨9, "m"⟩ cDeserE "m" ⟨"m"⟩).1 cMwFVeto rfl rfl (by decide)
    exact h.2 rfl

/-- C5, counterexample: with one registered friend receiver, the units of
work submitted for one inbound friend message are the dispatch step —
submitted bare at `self.__executor.submit(self.__friend_context_distributor,
context)`, with no `add_done_callback` — and the receiver call, which does
carry the callback; so not every submitted unit is wrapped with the
completion callback. -/
theorem submission_callback_missing_on_dispatch :
    friend_pipeline_submissions cBot1 cDeserF "m"
      = .ok [⟨.dispatchStep, false⟩, ⟨.handlerCall 7, true⟩]
    ∧ ¬ (∀ s ∈ ([⟨.dispatchStep, false⟩, ⟨.handlerCall 7, true⟩] : List (Submission Nat)),
          s.hasDoneCallback = true) := by
  refine ⟨rfl, ?_⟩
  intro h
  have := h ⟨.dispatchStep, false⟩ (by simp)
  simp at this

/-- C5, amended: every individual receiver-invocation unit submitted to the
pool is wrapped with `.add_done_callback(self.__thread_pool_callback)` (as
is the scheduler-loop unit), but the per-category dispatch step is
submitted without the completion callback, in all three categories. -/
theorem submission_callback_discipline (bot : IOTBOT H)
    (deserF : String → Except PyErr FriendMsg) (msgF : String)
    (deserG : String → Except PyErr GroupMsg) (msgG : String)
    (deserE : String → Except PyErr EventMsg) (msgE : String) :
    (∀ tr, friend_pipeline_submissions bot deserF msgF = .ok tr →
      tr.all submissionDiscipline = true)
    ∧ (∀ tr, group_pipeline_submissions bot deserG msgG = .ok tr →
      tr.all submissionDiscipline = true)
    ∧ (∀ tr, event_pipeline_submissions bot deserE msgE = .ok tr →
      tr.all submissionDiscipline = true) := by
  refine ⟨?_, ?_, ?_⟩
  · intro tr h
    cases hh : friend_msg_handler bot deserF msgF with
    | error e => simp [friend_pipeline_submissions, hh, except_error_bind] at h
    | ok outcome =>
      cases outcome with
      | dispatched ctx =>
        simp [friend_pipeline_submissions, hh, except_ok_bind] at h
        subst h
        simp [List.all_map, Function.comp, submissionDiscipline]
      | droppedBlacklist =>
        simp [friend_pipeline_submissions, hh, except_ok_bind] at h
        subst h; rfl
      | droppedMiddleware =>
        simp [friend_pipeline_submissions, hh, except_ok_bind] at h
        subst h; rfl
  · intro tr h
    cases hh : group_msg_handler bot deserG msgG with
    | error e => simp [group_pipeline_submissions, hh, except_error_bind] at h
    | ok outcome =>
      cases outcome with
      | dispatched ctx =>
        simp [group_pipeline_submissions, hh, except_ok_bind] at h
        subst h
        simp [List.all_map, Function.comp, submissionDiscipline]
      | droppedBlacklist =>
        simp [group_pipeline_submissions, hh, except_ok_bind] at h
        subst h; rfl
      | droppedMiddleware =>
        simp [group_pipeline_submissions, hh, except_ok_bind] at h
        subst h; rfl
  · intro tr h
    cases hh : event_msg_handler bot deserE msgE with
    | error e => simp [event_pipeline_submissions, hh, except_error_bind] at h
    | ok outcome =>
      cases outcome with
      | dispatched ctx =>
        simp [event_pipeline_submissions, hh, except_ok_bind] at h
        subst h
        simp [List.all_map, Function.comp, submissionDiscipline]
      | droppedBlacklist =>
        simp [event_pipeline_submissions, hh, except_ok_bind] at h
        subst h; rfl
      | droppedMiddleware =>
        simp [event_pipeline_submissions, hh, except_ok_bind] at h
        subst h; rfl

/-- C5, witness for the amended theorem, on the concrete one-receiver bot. -/
theorem submission_callback_discipline_witness :
    (([⟨.dispatchStep, false⟩, ⟨.handlerCall 7, true⟩] : List (Submission Nat)).all
      submissionDiscipline) = true :=
  (submission_callback_discipline cBot1 cDeserF "m" cDeserG "m" cDeserE "m").1
    [⟨.dispatchStep, false⟩, ⟨.handlerCall 7, true⟩] rfl

/-- C6, counterexample: when deserialization raises, the exception is not
caught at the dispatch step — `__friend_msg_handler` has no `try`/`except`,
so the handler does not complete with a dropped-message outcome; the
exception escapes to the caller. -/
theorem dispatch_failure_not_caught :
    friend_msg_handler cBot1 cDeserBoom "m" = .error "boom"
    ∧ ¬ ∃ outcome, friend_msg_handler cBot1 cDeserBoom "m" = .ok outcome := by
  refine ⟨rfl, ?_⟩
  rintro ⟨o, h⟩
  rw [show friend_msg_handler cBot1 cDeserBoom "m" = .error "boom" from rfl] at h
  simp at h

/-- C6, amended: an exception raised by deserialization or by the
middleware propagates out of the category's message handler uncaught (to
the external socketio callback machinery); no receiver of that category is
invoked for the message and no distributor submission is made, and the
repository's own code neither catches nor logs the failure. -/
theorem dispatch_failure_propagates (bot : IOTBOT H)
    (deserF : String → Except PyErr FriendMsg) (msgF : String)
    (deserE : String → Except PyErr EventMsg) (msgE : String) (e : PyErr) :
    (deserF msgF = .error e →
      friend_msg_handler bot deserF msgF = .error e
      ∧ friend_handlers_invoked bot deserF msgF = .error e
      ∧ friend_pipeline_submissions bot deserF msgF = .error e)
    ∧ (∀ ctx mw, deserF msgF = .ok ctx → ctx.FromUin ∉ bot.friend_blacklist →
        bot.friend_context_middleware = some mw → mw ctx = .error e →
        friend_msg_handler bot deserF msgF = .error e
        ∧ friend_handlers_invoked bot deserF msgF = .error e)
    ∧ (deserE msgE = .error e →
      event_msg_handler bot deserE msgE = .error e
      ∧ event_handlers_invoked bot deserE msgE = .error e)
    ∧ (∀ ctx mw, deserE msgE = .ok ctx →
        bot.event_context_middleware = some mw → mw ctx = .error e →
        event_msg_handler bot deserE msgE = .error e
        ∧ event_handlers_invoked bot deserE msgE = .error e) := by
  refine ⟨?_, ?_, ?_, ?_⟩
  · intro h
    refine ⟨?_, ?_, ?_⟩
    · simp [friend_msg_handler, h, except_error_bind]
    · simp [friend_handlers_invoked, friend_msg_handler, h, except_error_bind]
    · simp [friend_pipeline_submissions, friend_msg_handler, h, except_error_bind]
  · intro ctx mw h1 h2 hmw hres
    constructor
    · simp [friend_msg_handler, except_ok_bind, except_error_bind, h1, h2, hmw, hres]
    · simp [friend_handlers_invoked, friend_msg_handler, except_ok_bind,
        except_error_bind, h1, h2, hmw, hres]
  · intro h
    constructor
    · simp [event_msg_handler, h, except_error_bind]
    · simp [event_handlers_invoked, event_msg_handler, h, except_error_bind]
  · intro ctx mw h1 hmw hres
    constructor
    · simp [event_msg_handler, except_ok_bind, except_error_bind, h1, hmw, hres]
    · simp [event_handlers_invoked, event_msg_handler, except_ok_bind,
        except_error_bind, h1, hmw, hres]

/-- C6, witness for the amended theorem: the raising deserializer and the
raising event middleware both make the corresponding handler return the
error with zero receiver invocations. -/
theorem dispatch_failure_propagates_witness :
    friend_handlers_invoked cBot1 cDeserBoom "m" = .error "boom"
    ∧ event_handlers_invoked cBotEMw cDeserE "m" = .error "mwboom" := by
  constructor
  · exact ((dispatch_failure_propagates cBot1 cDeserBoom "m" cDeserE "m" "boom").1 rfl).2.1
  · exact (((dispatch_failure_propagates cBotEMw cDeserBoom "m" cDeserE "m"
      "mwboom").2.2.2) ⟨"m"⟩ cMwEBoom rfl rfl rfl).2

/-- C7: starting from a session whose scheduler has not been started,
across any sequence of connects, disconnects and job registrations the
scheduler loop (`_run_padding`) is submitted at most once; and a single
connect submits it exactly when at least one job is registered and the
`started` flag is unset, so it is never started on a connect with the flag
already set or with zero jobs, and is started on the first connect at which
a job exists. -/
theorem scheduler_started_at_most_once (bot : IOTBOT H) (evs : List SessionEvent)
    (h : bot.scheduler_started = false) :
    countSchedulerSubmissions (runEvents bot evs).2 ≤ 1
    ∧ ∀ b : IOTBOT H,
        countSchedulerSubmissions (connect b).2
          = if b.scheduler_jobs ≠ 0 ∧ b.scheduler_started = false then 1 else 0 := by
  constructor
  · have hinv := runEvents_sched_invariant evs bot
    rw [h] at hinv
    cases hfin : (runEvents bot evs).1.scheduler_started <;>
      rw [hfin] at hinv <;> simp at hinv <;> omega
  · intro b
    have hc := (connect_sched_count b).1
    rw [hc]
    by_cases hj : b.scheduler_jobs = 0 <;> cases hs : b.scheduler_started <;>
      simp [hj, hs]

/-- C7, witness: on the fresh bot, the event sequence add-job, connect,
connect submits the scheduler loop at most once. -/
theorem scheduler_started_at_most_once_witness :
    countSchedulerSubmissions
      (runEvents cBot0 [.addJob, .connectEvent, .connectEvent]).2 ≤ 1 :=
  (scheduler_started_at_most_once cBot0 [.addJob, .connectEvent, .connectEvent] rfl).1

/-- C8: a connect hook registered with `every_time = false` runs exactly
once across two consecutive connect events (the slot is cleared after its
first execution, so the second connect runs no hook), while a hook with
`every_time = true` runs once per connect event; the same holds for the
disconnect hook across disconnect events. -/
theorem lifecycle_hooks_semantics (bot : IOTBOT H) (f : H) :
    (countHooksRun (connect { bot with when_connected_do := some (f, false) }).2 = 1
      ∧ ConnectEffect.hookRan f ∈ (connect { bot with when_connected_do := some (f, false) }).2
      ∧ countHooksRun (connect (connect { bot with when_connected_do := some (f, false) }).1).2 = 0)
    ∧ (countHooksRun (connect { bot with when_connected_do := some (f, true) }).2 = 1
      ∧ ConnectEffect.hookRan f ∈ (connect { bot with when_connected_do := some (f, true) }).2
      ∧ countHooksRun (connect (connect { bot with when_connected_do := some (f, true) }).1).2 = 1
      ∧ ConnectEffect.hookRan f ∈ (connect (connect { bot with when_connected_do := some (f, true) }).1).2)
    ∧ (countHooksRun (disconnect { bot with when_disconnected_do := some (f, false) }).2 = 1
      ∧ ConnectEffect.hookRan f ∈ (disconnect { bot with when_disconnected_do := some (f, false) }).2
      ∧ countHooksRun (disconnect (disconnect { bot with when_disconnected_do := some (f, false) }).1).2 = 0)
    ∧ (countHooksRun (disconnect { bot with when_disconnected_do := some (f, true) }).2 = 1
      ∧ ConnectEffect.hookRan f ∈ (disconnect { bot with when_disconnected_do := some (f, true) }).2
      ∧ countHooksRun (disconnect (disconnect { bot with when_disconnected_do := some (f, true) }).1).2 = 1
      ∧ ConnectEffect.hookRan f ∈ (disconnect (disconnect { bot with when_disconnected_do := some (f, true) }).1).2) := by
  cases hf : (bot.scheduler_jobs != 0 && !bot.scheduler_started) <;>
    simp [connect, disconnect, countHooksRun, countHooksRun_append, hf]

/-- C9: the group-context distributor gives every receiver its own deep
copy of the dispatched message: the receivers invoked are exactly the
hand-registered ones followed by the plugin ones, every copy is
structurally equal to the dispatched context, no copy is the context
object itself, and the copies are pairwise distinct objects, so one
receiver mutating its copy is invisible to the context and to every
sibling receiver. -/
theorem deepcopy_isolation (bot : IOTBOT H) (context : PyObj GroupMsg) (fresh : Nat)
    (h : context.addr < fresh) :
    (group_context_distributor_objs bot context fresh).map Prod.fst
        = bot.group_msg_receivers_from_hand ++ bot.plug_group_msg_receivers
    ∧ (∀ e ∈ group_context_distributor_objs bot context fresh, e.2.val = context.val)
    ∧ (∀ e ∈ group_context_distributor_objs bot context fresh, e.2.addr ≠ context.addr)
    ∧ ((group_context_distributor_objs bot context fresh).map fun e => e.2.addr).Nodup := by
  refine ⟨submitWithCopies_map_fst context _ fresh, ?_, ?_, submitWithCopies_addr_nodup context _ fresh⟩
  · intro e he
    exact (submitWithCopies_mem context _ fresh e he).1
  · intro e he
    have := (submitWithCopies_mem context _ fresh e he).2.1
    omega

/-- C9, witness: with two group receivers, context object at address 0 and
the allocator at address 1, the distributor invokes receivers 1 then 2 on
copies at pairwise distinct fresh addresses. -/
theorem deepcopy_isolation_witness :
    (group_context_distributor_objs cBotG ⟨0, ⟨9, "x"⟩⟩ 1).map Prod.fst = [1, 2]
    ∧ ((group_context_distributor_objs cBotG ⟨0, ⟨9, "x"⟩⟩ 1).map fun e => e.2.addr).Nodup := by
  have h := deepcopy_isolation cBotG ⟨0, ⟨9, "x"⟩⟩ 1 (by decide)
  exact ⟨by simpa using h.1, h.2.2.2⟩

end Iotbot
